import Mathlib

set_option maxHeartbeats 1000000

/-!
Shallow embedding of the signal-generation core of the trading bot
(TradingBotEngine, MLModelTraining) and proofs about its specification.

Numbers are modelled as rationals; JavaScript division producing NaN or
Infinity is modelled explicitly with the JsNum type where it can occur
(the stochastic oscillator).  Transcendental library calls (Math.log,
Math.sqrt, Math.exp, Math.tanh) are taken as function parameters of the
embedding; theorems that depend on their values assume only the exact
identities guaranteed by IEEE (sqrt 0 = 0, log 1 = 0).
-/

/-- Direction of a trading signal: CALL (up) or PUT (down). -/
inductive Direction
| CALL
| PUT
deriving DecidableEq

/-- Embeds TradingBotEngine.normalizeData: min-max normalization of a numeric
vector; a zero range maps every element to 0.5.  An empty array yields an
empty array (in the source the map over the empty array never runs). -/
def normalizeData : List ℚ → List ℚ
| [] => []
| x :: xs =>
  let mn := xs.foldl min x
  let mx := xs.foldl max x
  let range := mx - mn
  if range = 0 then (x :: xs).map (fun _ => (1 : ℚ) / 2)
  else (x :: xs).map (fun value => (value - mn) / range)

/-- Change series used by calculateRSI: entry i is prices[i+1] - prices[i]. -/
def priceChanges (prices : List ℚ) : List ℚ :=
  List.zipWith (fun a b => a - b) prices.tail prices

/-- First for-loop of TradingBotEngine.calculateRSI: sum gains and losses over
the first period changes, then divide each by the period. -/
def rsiInitAverages (changes : List ℚ) (period : ℕ) : ℚ × ℚ :=
  let gl := (changes.take period).foldl
    (fun gl c => if c > 0 then (gl.1 + c, gl.2) else (gl.1, gl.2 - c)) (0, 0)
  (gl.1 / (period : ℚ), gl.2 / (period : ℚ))

/-- Second for-loop of TradingBotEngine.calculateRSI: Wilder smoothing of the
average gain and average loss over the remaining changes. -/
def rsiSmooth (period : ℕ) (init : ℚ × ℚ) (rest : List ℚ) : ℚ × ℚ :=
  rest.foldl
    (fun avg c =>
      let gain := if c > 0 then c else 0
      let loss := if c < 0 then -c else 0
      ((avg.1 * ((period : ℚ) - 1) + gain) / (period : ℚ),
       (avg.2 * ((period : ℚ) - 1) + loss) / (period : ℚ)))
    init

/-- Embeds TradingBotEngine.calculateRSI (Wilder RSI; the source default
period is 14 and the engine always calls it with that default). -/
def calculateRSI (prices : List ℚ) (period : ℕ) : ℚ :=
  if prices.length < period + 1 then 50
  else
    let changes := priceChanges prices
    let avg := rsiSmooth period (rsiInitAverages changes period) (changes.drop period)
    if avg.2 = 0 then 100
    else
      let rs := avg.1 / avg.2
      100 - 100 / (1 + rs)

/-- Concrete strictly increasing 16-point price series. -/
def upPrices : List ℚ :=
  [0, 1, 2, 3, 4, 5, 6, 7, 8, 9, 10, 11, 12, 13, 14, 15]

/-- JavaScript IEEE number abstraction used where the source can produce NaN
or Infinity (the stochastic oscillator): a finite rational, a signed infinity
(pos = true is positive infinity), or NaN. -/
inductive JsNum
| nan
| inf (pos : Bool)
| val (q : ℚ)
deriving DecidableEq

/-- IEEE subtraction on JsNum. -/
def JsNum.sub : JsNum → JsNum → JsNum
| nan, _ => nan
| _, nan => nan
| inf p, inf q => if p = q then nan else inf p
| inf p, val _ => inf p
| val _, inf p => inf (!p)
| val a, val b => val (a - b)

/-- IEEE division on JsNum: 0/0 is NaN, q/0 for nonzero q is a signed
infinity. -/
def JsNum.div : JsNum → JsNum → JsNum
| nan, _ => nan
| _, nan => nan
| inf _, inf _ => nan
| inf p, val b => if 0 ≤ b then inf p else inf (!p)
| val _, inf _ => val 0
| val a, val b =>
  if b = 0 then (if a = 0 then nan else if 0 < a then inf true else inf false)
  else val (a / b)

/-- IEEE multiplication on JsNum. -/
def JsNum.mul : JsNum → JsNum → JsNum
| nan, _ => nan
| _, nan => nan
| inf p, inf q => inf (p == q)
| inf p, val b => if b = 0 then nan else if 0 < b then inf p else inf (!p)
| val a, inf p => if a = 0 then nan else if 0 < a then inf p else inf (!p)
| val a, val b => val (a * b)

/-- IEEE less-than on JsNum: any comparison involving NaN is false. -/
def JsNum.ltb : JsNum → JsNum → Bool
| nan, _ => false
| _, nan => false
| inf p, inf q => !p && q
| inf p, val _ => !p
| val _, inf p => p
| val a, val b => decide (a < b)

/-- IEEE less-or-equal on JsNum: any comparison involving NaN is false. -/
def JsNum.leb : JsNum → JsNum → Bool
| nan, _ => false
| _, nan => false
| inf p, inf q => !p || q
| inf p, val _ => !p
| val _, inf p => p
| val a, val b => decide (a ≤ b)

/-- One OHLCV market observation (interface MarketData).  The source field
named open is rendered openPrice because open is a Lean keyword. -/
structure MarketData where
  symbol : String
  price : ℚ
  change : ℚ
  changePercent : ℚ
  volume : ℚ
  high : ℚ
  low : ℚ
  openPrice : ℚ
  timestamp : ℚ
deriving DecidableEq

/-- MACD triple returned by calculateMACD. -/
structure MACDResult where
  macd : ℚ
  signal : ℚ
  histogram : ℚ
deriving DecidableEq

/-- Bollinger band triple returned by calculateBollingerBands. -/
structure BollingerBands where
  upper : ℚ
  middle : ℚ
  lower : ℚ
deriving DecidableEq

/-- Stochastic pair returned by calculateStochastic; JsNum because the
division is unguarded in the source. -/
structure StochasticResult where
  k : JsNum
  d : JsNum
deriving DecidableEq

/-- Support and resistance pair returned by calculateSupportResistance. -/
structure SupportResistanceLevels where
  support : ℚ
  resistance : ℚ
deriving DecidableEq

/-- Indicator snapshot (interface TechnicalIndicators). -/
structure TechnicalIndicators where
  rsi : ℚ
  macd : MACDResult
  bollingerBands : BollingerBands
  sma20 : ℚ
  sma50 : ℚ
  ema12 : ℚ
  ema26 : ℚ
  stochastic : StochasticResult
  volatility : ℚ
  support : ℚ
  resistance : ℚ
deriving DecidableEq

/-- Embeds TradingBotEngine.calculateEMA: seeded with the first price,
multiplier 2/(period+1). -/
def calculateEMA (prices : List ℚ) (period : ℕ) : ℚ :=
  match prices with
  | [] => 0
  | [p] => p
  | p :: rest =>
    let multiplier : ℚ := 2 / ((period : ℚ) + 1)
    rest.foldl (fun ema price => price * multiplier + ema * (1 - multiplier)) p

/-- Embeds TradingBotEngine.calculateSMA: below the period it returns the
last price (0 for an empty list, via the JS or-default). -/
def calculateSMA (prices : List ℚ) (period : ℕ) : ℚ :=
  if prices.length < period then (prices.getLast?).getD 0
  else
    let recentPrices := prices.drop (prices.length - period)
    (recentPrices.foldl (fun sum price => sum + price) 0) / (period : ℚ)

/-- Embeds TradingBotEngine.calculateMACD; the signal line is the EMA of the
single-element array [macd], exactly as in the source. -/
def calculateMACD (prices : List ℚ) : MACDResult :=
  let ema12 := calculateEMA prices 12
  let ema26 := calculateEMA prices 26
  let macd := ema12 - ema26
  let signal := calculateEMA [macd] 9
  ⟨macd, signal, macd - signal⟩

/-- Embeds TradingBotEngine.calculateBollingerBands, parametrized by the
Math.sqrt implementation.  For an empty price list the source reads
prices[-1] as undefined (NaN); the embedding returns 0 there, a case no
theorem exercises. -/
def calculateBollingerBands (sqrt : ℚ → ℚ) (prices : List ℚ) (period : ℕ) (stdDev : ℚ) :
    BollingerBands :=
  if prices.length < period then
    let lastPrice := (prices.getLast?).getD 0
    ⟨lastPrice, lastPrice, lastPrice⟩
  else
    let recentPrices := prices.drop (prices.length - period)
    let sma := (recentPrices.foldl (fun sum price => sum + price) 0) / (period : ℚ)
    let variance :=
      (recentPrices.foldl (fun sum price => sum + (price - sma) ^ 2) 0) / (period : ℚ)
    let standardDeviation := sqrt variance
    ⟨sma + standardDeviation * stdDev, sma, sma - standardDeviation * stdDev⟩

/-- Spread maximum of a rational list (Math.max of no arguments is
negative infinity). -/
def jsMaxList : List ℚ → JsNum
| [] => JsNum.inf false
| x :: xs => JsNum.val (xs.foldl max x)

/-- Spread minimum of a rational list (Math.min of no arguments is
positive infinity). -/
def jsMinList : List ℚ → JsNum
| [] => JsNum.inf true
| x :: xs => JsNum.val (xs.foldl min x)

/-- Embeds TradingBotEngine.calculateStochastic.  The division by
(highestHigh - lowestLow) is unguarded in the source; JsNum records the NaN
or Infinity it produces on a degenerate window.  The percent-D line is the
percent-K line, as in the source. -/
def calculateStochastic (highs lows closes : List ℚ) (period : ℕ) : StochasticResult :=
  if closes.length < period then ⟨JsNum.val 50, JsNum.val 50⟩
  else
    let recentHighs := highs.drop (highs.length - period)
    let recentLows := lows.drop (lows.length - period)
    let currentClose := match closes.getLast? with
      | some c => JsNum.val c
      | none => JsNum.nan
    let highestHigh := jsMaxList recentHighs
    let lowestLow := jsMinList recentLows
    let k := ((currentClose.sub lowestLow).div (highestHigh.sub lowestLow)).mul (JsNum.val 100)
    ⟨k, k⟩

/-- Embeds TradingBotEngine.calculateVolatility, parametrized by the Math.log
and Math.sqrt implementations (annualization multiplies by sqrt 252). -/
def calculateVolatility (log sqrt : ℚ → ℚ) (prices : List ℚ) (period : ℕ) : ℚ :=
  if prices.length < period then 0
  else
    let n := min prices.length (period + 1)
    let returns := (List.range (n - 1)).map
      (fun i => log ((prices.getD (i + 1) 0) / (prices.getD i 0)))
    let mean := (returns.foldl (fun sum ret => sum + ret) 0) / (returns.length : ℚ)
    let variance :=
      (returns.foldl (fun sum ret => sum + (ret - mean) ^ 2) 0) / (returns.length : ℚ)
    sqrt variance * sqrt 252

/-- Embeds TradingBotEngine.calculateSupportResistance.  The engine always
calls it with the default period 20; the inner empty-window branches are
unreachable for a positive period. -/
def calculateSupportResistance (highs lows : List ℚ) (period : ℕ) : SupportResistanceLevels :=
  if highs.length < period ∨ lows.length < period then
    ⟨(lows.getLast?).getD 0, (highs.getLast?).getD 0⟩
  else
    let recentHighs := highs.drop (highs.length - period)
    let recentLows := lows.drop (lows.length - period)
    let resistance := match recentHighs with
      | [] => 0
      | x :: xs => xs.foldl max x
    let support := match recentLows with
      | [] => 0
      | x :: xs => xs.foldl min x
    ⟨support, resistance⟩

/-- Embeds TradingBotEngine.calculateTechnicalIndicators, parametrized by the
Math.log and Math.sqrt implementations. -/
def calculateTechnicalIndicators (log sqrt : ℚ → ℚ) (marketData : List MarketData) :
    TechnicalIndicators :=
  if marketData.length = 0 then
    { rsi := 50
      macd := ⟨0, 0, 0⟩
      bollingerBands := ⟨0, 0, 0⟩
      sma20 := 0
      sma50 := 0
      ema12 := 0
      ema26 := 0
      stochastic := ⟨JsNum.val 50, JsNum.val 50⟩
      volatility := 0
      support := 0
      resistance := 0 }
  else
    let prices := marketData.map (fun d => d.price)
    let highs := marketData.map (fun d => d.high)
    let lows := marketData.map (fun d => d.low)
    let closes := marketData.map (fun d => d.price)
    { rsi := calculateRSI prices 14
      macd := calculateMACD prices
      bollingerBands := calculateBollingerBands sqrt prices 20 2
      sma20 := calculateSMA prices 20
      sma50 := calculateSMA prices 50
      ema12 := calculateEMA prices 12
      ema26 := calculateEMA prices 26
      stochastic := calculateStochastic highs lows closes 14
      volatility := calculateVolatility log sqrt prices 20
      support := (calculateSupportResistance highs lows 20).support
      resistance := (calculateSupportResistance highs lows 20).resistance }

/-- Result of the rule-based scorer: a confidence in [0, 1] and the list of
triggered reasons. -/
structure RuleSignals where
  confidence : ℚ
  reasoning : List String
deriving DecidableEq

/-- Embeds TradingBotEngine.analyzeRuleBasedSignals: six threshold checks,
each incrementing a bullish or bearish counter and appending one reason
string; confidence is bullish/(bullish+bearish), or 0.5 when nothing
fires. -/
def analyzeRuleBasedSignals (indicators : TechnicalIndicators) (currentData : MarketData) :
    RuleSignals :=
  let r1 : ℕ × ℕ × List String :=
    if indicators.rsi < 30 then (1, 0, ["RSI oversold (< 30) - bullish signal"])
    else if indicators.rsi > 70 then (0, 1, ["RSI overbought (> 70) - bearish signal"])
    else (0, 0, [])
  let r2 : ℕ × ℕ × List String :=
    if indicators.macd.macd > indicators.macd.signal ∧ indicators.macd.histogram > 0 then
      (1, 0, ["MACD bullish crossover"])
    else if indicators.macd.macd < indicators.macd.signal ∧ indicators.macd.histogram < 0 then
      (0, 1, ["MACD bearish crossover"])
    else (0, 0, [])
  let r3 : ℕ × ℕ × List String :=
    if currentData.price ≤ indicators.bollingerBands.lower then
      (1, 0, ["Price at lower Bollinger Band - oversold"])
    else if currentData.price ≥ indicators.bollingerBands.upper then
      (0, 1, ["Price at upper Bollinger Band - overbought"])
    else (0, 0, [])
  let r4 : ℕ × ℕ × List String :=
    if indicators.ema12 > indicators.ema26 ∧ currentData.price > indicators.sma20 then
      (1, 0, ["Price above SMA20 with EMA12 > EMA26 - bullish trend"])
    else if indicators.ema12 < indicators.ema26 ∧ currentData.price < indicators.sma20 then
      (0, 1, ["Price below SMA20 with EMA12 < EMA26 - bearish trend"])
    else (0, 0, [])
  let r5 : ℕ × ℕ × List String :=
    if indicators.stochastic.k.ltb (JsNum.val 20) && indicators.stochastic.d.ltb (JsNum.val 20)
    then (1, 0, ["Stochastic oversold - bullish signal"])
    else if (JsNum.val 80).ltb indicators.stochastic.k && (JsNum.val 80).ltb indicators.stochastic.d
    then (0, 1, ["Stochastic overbought - bearish signal"])
    else (0, 0, [])
  let priceNearSupport := |currentData.price - indicators.support| / currentData.price < 1 / 100
  let priceNearResistance :=
    |currentData.price - indicators.resistance| / currentData.price < 1 / 100
  let r6 : ℕ × ℕ × List String :=
    if priceNearSupport then (1, 0, ["Price near support level - potential bounce"])
    else if priceNearResistance then (0, 1, ["Price near resistance level - potential rejection"])
    else (0, 0, [])
  let bullishSignals := r1.1 + r2.1 + r3.1 + r4.1 + r5.1 + r6.1
  let bearishSignals := r1.2.1 + r2.2.1 + r3.2.1 + r4.2.1 + r5.2.1 + r6.2.1
  let reasoning := r1.2.2 ++ r2.2.2 ++ r3.2.2 ++ r4.2.2 ++ r5.2.2 ++ r6.2.2
  let totalSignals := bullishSignals + bearishSignals
  let confidence : ℚ :=
    if totalSignals = 0 then 1 / 2 else (bullishSignals : ℚ) / (totalSignals : ℚ)
  ⟨confidence, reasoning⟩

/-- Flat bar at price 1.10000 used by the C3 scenario. -/
def flatBar : MarketData :=
  { symbol := "EURUSD"
    price := 11 / 10
    change := 0
    changePercent := 0
    volume := 0
    high := 11 / 10
    low := 11 / 10
    openPrice := 11 / 10
    timestamp := 0 }

/-- Thirty identical flat bars (the 30-bar flat price series of C3). -/
def flatBars : List MarketData :=
  [flatBar, flatBar, flatBar, flatBar, flatBar, flatBar,
   flatBar, flatBar, flatBar, flatBar, flatBar, flatBar,
   flatBar, flatBar, flatBar, flatBar, flatBar, flatBar,
   flatBar, flatBar, flatBar, flatBar, flatBar, flatBar,
   flatBar, flatBar, flatBar, flatBar, flatBar, flatBar]

/-- Fourteen constant highs and lows for the C9 scenario. -/
def cexHighs : List ℚ :=
  [1, 1, 1, 1, 1, 1, 1, 1, 1, 1, 1, 1, 1, 1]

/-- Closes matching cexHighs except that the current close is 2, above the
degenerate window. -/
def cexCloses : List ℚ :=
  [1, 1, 1, 1, 1, 1, 1, 1, 1, 1, 1, 1, 1, 2]


/-- Duration of a binary-option signal in minutes (TS union type 1 or 3 or
5). -/
inductive Duration
| one
| three
| five
deriving DecidableEq

/-- Generated trading signal (interface TradingSignal); stopLoss and
takeProfit are optional in TS but always set on emitted signals. -/
structure TradingSignal where
  symbol : String
  direction : Direction
  confidence : ℚ
  duration : Duration
  entryPrice : ℚ
  stopLoss : ℚ
  takeProfit : ℚ
  timestamp : ℚ
  reasoning : List String
  technicalIndicators : TechnicalIndicators
deriving DecidableEq

/-- Embeds the combination-and-emission tail of the basic engine's
generateTradingSignal (part_000): everything after the data fetches, feature
extraction and neural-network forward pass.  The ML prediction (a sigmoid
output) and the rule-based result are inputs; weights are 0.6 and 0.4,
thresholds 0.6 and 0.4; now is the Date.now() timestamp.  The numeric
interpolation inside the bullish/bearish headline strings is elided. -/
def generateSignalCore (mlPrediction : ℚ) (ruleBasedSignals : RuleSignals)
    (indicators : TechnicalIndicators) (currentData : MarketData)
    (duration : Duration) (now : ℚ) : Option TradingSignal :=
  let combinedConfidence := mlPrediction * (6 / 10) + ruleBasedSignals.confidence * (4 / 10)
  let headline : Option (Direction × List String) :=
    if combinedConfidence > 6 / 10 then some (Direction.CALL, ["Strong bullish signal"])
    else if combinedConfidence < 4 / 10 then some (Direction.PUT, ["Strong bearish signal"])
    else none
  match headline with
  | none => none
  | some (direction, headReasoning) =>
    let reasoning := headReasoning ++ ruleBasedSignals.reasoning
    let volatilityAdjustment := indicators.volatility * currentData.price * (1 / 100)
    let stopLoss := if direction = Direction.CALL
      then currentData.price - volatilityAdjustment
      else currentData.price + volatilityAdjustment
    let takeProfit := if direction = Direction.CALL
      then currentData.price + volatilityAdjustment * 2
      else currentData.price - volatilityAdjustment * 2
    some
      { symbol := currentData.symbol
        direction := direction
        confidence := |combinedConfidence - 1 / 2| * 2
        duration := duration
        entryPrice := currentData.price
        stopLoss := stopLoss
        takeProfit := takeProfit
        timestamp := now
        reasoning := reasoning
        technicalIndicators := indicators }

/-- Combined confidence of the enhanced engine (TradingBotEngine.ts):
sentiment takes up to 10 percent of the weight away from the ML model and
shifts the sum by its own signed weight. -/
def combinedConfidenceEnhanced (mlPrediction overallSentiment ruleConfidence : ℚ) : ℚ :=
  let sentimentWeight := |overallSentiment| * (1 / 10)
  let mlWeight := 6 / 10 - sentimentWeight
  let ruleWeight := (4 : ℚ) / 10
  mlPrediction * mlWeight + ruleConfidence * ruleWeight +
    (if overallSentiment > 0 then sentimentWeight else -sentimentWeight)

/-- Direction decision of the enhanced engine: CALL above 0.65, PUT below
0.35, otherwise no signal. -/
def signalHeadlineEnhanced (combinedConfidence : ℚ) : Option (Direction × List String) :=
  if combinedConfidence > 65 / 100 then some (Direction.CALL, ["Strong bullish signal"])
  else if combinedConfidence < 35 / 100 then some (Direction.PUT, ["Strong bearish signal"])
  else none

/-- Embeds the combination-and-emission tail of the enhanced engine's
generateTradingSignal (TradingBotEngine.ts): sentiment enters the weights
and the thresholds are 0.65 and 0.35.  upcomingEventsCount is the number of
events within 24 hours returned by the economic-calendar collaborator; the
sentiment, headline and event reasoning strings elide their numeric
interpolation. -/
def generateSignalEnhanced (mlPrediction overallSentiment : ℚ)
    (ruleBasedSignals : RuleSignals) (indicators : TechnicalIndicators)
    (currentData : MarketData) (duration : Duration) (now : ℚ)
    (upcomingEventsCount : ℕ) : Option TradingSignal :=
  match signalHeadlineEnhanced
      (combinedConfidenceEnhanced mlPrediction overallSentiment ruleBasedSignals.confidence) with
  | none => none
  | some (direction, headReasoning) =>
    let sentimentReasoning :=
      if |overallSentiment| > 3 / 10 then ["Market sentiment"] else []
    let eventReasoning :=
      if upcomingEventsCount > 0 then ["economic events in next 24h may impact price"] else []
    let reasoning := headReasoning ++ sentimentReasoning ++ ruleBasedSignals.reasoning ++
      eventReasoning
    let volatilityAdjustment := indicators.volatility * currentData.price * (15 / 1000)
    let sentimentAdjustment := |overallSentiment| * currentData.price * (5 / 1000)
    let stopLoss := if direction = Direction.CALL
      then currentData.price - (volatilityAdjustment + sentimentAdjustment)
      else currentData.price + (volatilityAdjustment + sentimentAdjustment)
    let takeProfit := if direction = Direction.CALL
      then currentData.price + volatilityAdjustment * (25 / 10)
      else currentData.price - volatilityAdjustment * (25 / 10)
    some
      { symbol := currentData.symbol
        direction := direction
        confidence :=
          |combinedConfidenceEnhanced mlPrediction overallSentiment ruleBasedSignals.confidence
            - 1 / 2| * 2
        duration := duration
        entryPrice := currentData.price
        stopLoss := stopLoss
        takeProfit := takeProfit
        timestamp := now
        reasoning := reasoning
        technicalIndicators := indicators }

/-- Neutral indicator snapshot (the empty-input default of
calculateTechnicalIndicators) used as a concrete input. -/
def cexIndicators : TechnicalIndicators :=
  calculateTechnicalIndicators (fun _ => 0) (fun _ => 0) []

/-- Concrete indicator snapshot whose only firing checks are the
lower-Bollinger touch and the near-support proximity (two bullish checks),
giving rule confidence 1. -/
def witnessIndicators : TechnicalIndicators :=
  { rsi := 50
    macd := ⟨0, 0, 0⟩
    bollingerBands := ⟨100, 50, 2⟩
    sma20 := 0
    sma50 := 0
    ema12 := 0
    ema26 := 0
    stochastic := ⟨JsNum.val 50, JsNum.val 50⟩
    volatility := 0
    support := 11 / 10
    resistance := 100 }

/-- Signal the basic engine emits for ML prediction 1 and the
witnessIndicators snapshot at the flat bar. -/
def witnessSignal : TradingSignal :=
  { symbol := "EURUSD"
    direction := Direction.CALL
    confidence := 1
    duration := Duration.one
    entryPrice := 11 / 10
    stopLoss := 11 / 10
    takeProfit := 11 / 10
    timestamp := 0
    reasoning := ["Strong bullish signal", "Price at lower Bollinger Band - oversold",
      "Price near support level - potential bounce"]
    technicalIndicators := witnessIndicators }


/-- Hidden-layer activation choices of MLModelTraining (TS union type). -/
inductive ActFn
| relu
| sigmoid
| tanh
deriving DecidableEq

/-- Network architecture (interface ModelArchitecture). -/
structure ModelArchitecture where
  inputSize : ℕ
  hiddenLayers : List ℕ
  outputSize : ℕ
  activationFunction : ActFn
  learningRate : ℚ
  epochs : ℕ
  batchSize : ℕ
deriving DecidableEq

/-- Per-epoch training record (interface TrainingMetrics). -/
structure TrainingMetrics where
  epoch : ℕ
  loss : ℚ
  accuracy : ℚ
  validationLoss : ℚ
  validationAccuracy : ℚ
  learningRate : ℚ
deriving DecidableEq

/-- Mutable state of one MLModelTraining instance. -/
structure MLModel where
  symbol : String
  architecture : ModelArchitecture
  weights : List (List ℚ)
  biases : List (List ℚ)
  trainingHistory : List TrainingMetrics
deriving DecidableEq

/-- Abstracted Math.exp and Math.tanh implementations used by the activation
functions. -/
structure MathImpl where
  exp : ℚ → ℚ
  tanh : ℚ → ℚ

/-- Embeds MLModelTraining.activate. -/
def activate (M : MathImpl) : ActFn → ℚ → ℚ
| ActFn.relu, x => max 0 x
| ActFn.sigmoid, x => 1 / (1 + M.exp (-x))
| ActFn.tanh, x => M.tanh x

/-- Embeds MLModelTraining.forwardPropagate.  As in the source, each layer
reads outputs[layer] (the previous layer's pre-activation sums; the input for
layer 0), not the previous activations; out-of-range array reads are modelled
with the 0 default.  Returns (outputs, activations), each seeded with the
input. -/
def forwardPropagate (M : MathImpl) (model : MLModel) (input : List ℚ) :
    List (List ℚ) × List (List ℚ) :=
  (List.range model.weights.length).foldl
    (fun acc layer =>
      let previousOutput := acc.1.getD layer []
      let layerWeights := model.weights.getD layer []
      let layerBiases := model.biases.getD layer []
      let layerSize := layerBiases.length
      let prevLayerSize := previousOutput.length
      let layerOutput := (List.range layerSize).map (fun neuron =>
        (List.range prevLayerSize).foldl
          (fun sum prevNeuron =>
            sum + previousOutput.getD prevNeuron 0 *
              layerWeights.getD (neuron * prevLayerSize + prevNeuron) 0)
          (layerBiases.getD neuron 0))
      let actFn := if layer = model.weights.length - 1 then ActFn.sigmoid
        else model.architecture.activationFunction
      let layerActivation := layerOutput.map (activate M actFn)
      (acc.1 ++ [layerOutput], acc.2 ++ [layerActivation]))
    ([input], [input])

/-- Embeds MLModelTraining.predict: the first activation of the last layer. -/
def predict (M : MathImpl) (model : MLModel) (features : List ℚ) : ℚ :=
  (((forwardPropagate M model features).2).getLast?.getD []).getD 0 0

/-- Record MLModelTraining.saveModel writes to storage under
ml_model_<symbol>; JSON serialization round-trips these finite values
exactly and is modelled as identity on the structured record. -/
structure StoredModel where
  architecture : ModelArchitecture
  weights : List (List ℚ)
  biases : List (List ℚ)
  trainingHistory : List TrainingMetrics
  timestamp : ℚ
deriving DecidableEq

/-- The key-value persistence collaborator (AsyncStorage) restricted to model
records. -/
def ModelStore : Type := String → Option StoredModel

/-- Embeds MLModelTraining.saveModel. -/
def saveModel (model : MLModel) (now : ℚ) (store : ModelStore) : ModelStore :=
  fun key =>
    if key = "ml_model_" ++ model.symbol then
      some ⟨model.architecture, model.weights, model.biases, model.trainingHistory, now⟩
    else store key

/-- Embeds MLModelTraining.loadModel: restores architecture, weights, biases
and training history from the stored record and reports success; returns the
model unchanged with false when no record exists. -/
def loadModel (model : MLModel) (store : ModelStore) : MLModel × Bool :=
  match store ("ml_model_" ++ model.symbol) with
  | none => (model, false)
  | some d =>
    ({ model with
        architecture := d.architecture
        weights := d.weights
        biases := d.biases
        trainingHistory := d.trainingHistory }, true)

/-- Trivial Math implementation for concrete witnesses. -/
def mathZero : MathImpl := ⟨fun _ => 0, fun _ => 0⟩

/-- Empty persistence store. -/
def emptyStore : ModelStore := fun _ => none

/-- Concrete two-layer model used by witnesses. -/
def demoModel : MLModel :=
  { symbol := "EURUSD"
    architecture := ⟨2, [2], 1, ActFn.relu, 1 / 1000, 150, 64⟩
    weights := [[1, 0, 0, 1], [1, 1]]
    biases := [[0, 0], [0]]
    trainingHistory := [] }

/-- Engine state relevant to the training guard of TradingBotEngine (the
per-symbol model and data maps do not affect the guard and are omitted). -/
structure EngineState where
  isTraining : Bool
deriving DecidableEq

/-- Outcome of the body of TradingBotEngine.trainModels (the fetches and
per-symbol training loop, abstracted as an effect): it either runs to
completion with its results, or an internal error is thrown and caught by
the catch block with the results accumulated so far. -/
inductive TrainOutcome
| succeeded (results : List (String × List TrainingMetrics))
| failed (partialResults : List (String × List TrainingMetrics))

/-- Embeds TradingBotEngine.trainModels: a concurrent call while isTraining
throws a distinct error; otherwise the try/catch/finally structure returns
the accumulated results and the finally block resets isTraining to false on
both the normal and the internal-error path. -/
def trainModels (state : EngineState) (body : TrainOutcome) :
    Except String (EngineState × List (String × List TrainingMetrics)) :=
  if state.isTraining then Except.error "Training already in progress"
  else
    let results := match body with
      | TrainOutcome.succeeded r => r
      | TrainOutcome.failed r => r
    Except.ok ({ state with isTraining := false }, results)

/-- Embeds TradingBotEngine.isModelTraining. -/
def isModelTraining (state : EngineState) : Bool := state.isTraining

/-- One entry of the per-symbol prediction log written by storePrediction. -/
structure StoredPrediction where
  timestamp : ℚ
  prediction : Direction
  confidence : ℚ
  features : List ℚ
  actualOutcome : Option Direction
deriving DecidableEq

/-- Aggregate evaluation record (interface ModelMetrics).  The source field
named recall is rendered recallScore because recall is a Lean command
keyword. -/
structure ModelMetrics where
  accuracy : ℚ
  precision : ℚ
  recallScore : ℚ
  f1Score : ℚ
  sharpeRatio : ℚ
  winRate : ℚ
  totalTrades : ℕ
  profitableTrades : ℕ
deriving DecidableEq

/-- The all-zero ModelMetrics record. -/
def zeroMetrics : ModelMetrics := ⟨0, 0, 0, 0, 0, 0, 0, 0⟩

/-- Counters accumulated by the forEach loop of evaluateModel. -/
structure PredCounts where
  correct : ℕ
  truePositives : ℕ
  falsePositives : ℕ
  falseNegatives : ℕ
  profitable : ℕ
deriving DecidableEq

/-- One iteration of the forEach loop of TradingBotEngine.evaluateModel. -/
def countPrediction (acc : PredCounts) (pred : StoredPrediction) : PredCounts :=
  let acc1 := if pred.actualOutcome = some pred.prediction
    then { acc with correct := acc.correct + 1, profitable := acc.profitable + 1 }
    else acc
  if pred.prediction = Direction.CALL ∧ pred.actualOutcome = some Direction.CALL then
    { acc1 with truePositives := acc1.truePositives + 1 }
  else if pred.prediction = Direction.CALL ∧ pred.actualOutcome = some Direction.PUT then
    { acc1 with falsePositives := acc1.falsePositives + 1 }
  else if pred.prediction = Direction.PUT ∧ pred.actualOutcome = some Direction.CALL then
    { acc1 with falseNegatives := acc1.falseNegatives + 1 }
  else acc1

/-- Embeds TradingBotEngine.evaluateModel as a function of the stored
per-symbol prediction log (predictions_<symbol> in storage; a missing key
parses to the empty list).  The or-default after each ratio in the source
catches exactly the NaN of 0/0, embedded as an explicit zero-denominator
conditional; the Sharpe computation is parametrized by Math.sqrt.  The
function is total: every input yields a ModelMetrics record. -/
def evaluateModel (sqrt : ℚ → ℚ) (stored : Option (List StoredPrediction)) : ModelMetrics :=
  let predictions := stored.getD []
  if predictions.length = 0 then zeroMetrics
  else
    let completedPredictions := predictions.filter (fun p => decide (p.actualOutcome ≠ none))
    if completedPredictions.length = 0 then zeroMetrics
    else
      let counts := completedPredictions.foldl countPrediction ⟨0, 0, 0, 0, 0⟩
      let accuracy := (counts.correct : ℚ) / (completedPredictions.length : ℚ)
      let precision := if counts.truePositives + counts.falsePositives = 0 then 0
        else (counts.truePositives : ℚ) / ((counts.truePositives + counts.falsePositives : ℕ) : ℚ)
      let recallScore := if counts.truePositives + counts.falseNegatives = 0 then 0
        else (counts.truePositives : ℚ) / ((counts.truePositives + counts.falseNegatives : ℕ) : ℚ)
      let f1Score := if precision + recallScore = 0 then 0
        else 2 * (precision * recallScore) / (precision + recallScore)
      let winRate := (counts.profitable : ℚ) / (completedPredictions.length : ℚ)
      let returns := completedPredictions.map (fun pred =>
        if pred.actualOutcome = some pred.prediction then (8 : ℚ) / 10 else -1)
      let avgReturn := (returns.foldl (fun sum ret => sum + ret) 0) / (returns.length : ℚ)
      let variance := (returns.foldl (fun sum ret => sum + (ret - avgReturn) ^ 2) 0) /
        (returns.length : ℚ)
      let sharpe := if variance > 0 then avgReturn / sqrt variance else 0
      ⟨accuracy, precision, recallScore, f1Score, sharpe, winRate,
        completedPredictions.length, counts.profitable⟩

/-- Concrete unresolved prediction (actualOutcome still null). -/
def demoPrediction : StoredPrediction := ⟨0, Direction.CALL, 1, [], none⟩

/-- Embeds TradingBotEngine.storePrediction as a function of the existing
stored log: appends the new entry and keeps only the last 1000 entries
(slice(-1000) is drop of all but the last 1000). -/
def storePrediction (existing : Option (List StoredPrediction)) (entry : StoredPrediction) :
    List StoredPrediction :=
  let predictions := (existing.getD []) ++ [entry]
  if predictions.length > 1000 then predictions.drop (predictions.length - 1000)
  else predictions

lemma foldl_min_mem (xs : List ℚ) : ∀ (x : ℚ), xs.foldl min x ∈ x :: xs := by
  induction xs with
  | nil => intro x; simp
  | cons y ys ih =>
    intro x
    rw [List.foldl_cons]
    rcases List.mem_cons.mp (ih (min x y)) with h1 | h2
    · rw [h1]
      rcases min_choice x y with hc | hc <;> rw [hc]
      · exact List.mem_cons_self _ _
      · exact List.mem_cons_of_mem _ (List.mem_cons_self _ _)
    · exact List.mem_cons_of_mem _ (List.mem_cons_of_mem _ h2)

lemma foldl_max_mem (xs : List ℚ) : ∀ (x : ℚ), xs.foldl max x ∈ x :: xs := by
  induction xs with
  | nil => intro x; simp
  | cons y ys ih =>
    intro x
    rw [List.foldl_cons]
    rcases List.mem_cons.mp (ih (max x y)) with h1 | h2
    · rw [h1]
      rcases max_choice x y with hc | hc <;> rw [hc]
      · exact List.mem_cons_self _ _
      · exact List.mem_cons_of_mem _ (List.mem_cons_self _ _)
    · exact List.mem_cons_of_mem _ (List.mem_cons_of_mem _ h2)

lemma foldl_min_le (xs : List ℚ) : ∀ (x : ℚ), ∀ y ∈ x :: xs, xs.foldl min x ≤ y := by
  induction xs with
  | nil =>
    intro x y hy
    simp at hy
    simp [hy]
  | cons z zs ih =>
    intro x y hy
    rw [List.foldl_cons]
    have step := ih (min x z)
    rcases List.mem_cons.mp hy with h1 | h2
    · rw [h1]
      exact le_trans (step _ (List.mem_cons_self _ _)) (min_le_left _ _)
    · rcases List.mem_cons.mp h2 with h3 | h4
      · rw [h3]
        exact le_trans (step _ (List.mem_cons_self _ _)) (min_le_right _ _)
      · exact step y (List.mem_cons_of_mem _ h4)

lemma le_foldl_max (xs : List ℚ) : ∀ (x : ℚ), ∀ y ∈ x :: xs, y ≤ xs.foldl max x := by
  induction xs with
  | nil =>
    intro x y hy
    simp at hy
    simp [hy]
  | cons z zs ih =>
    intro x y hy
    rw [List.foldl_cons]
    have step := ih (max x z)
    rcases List.mem_cons.mp hy with h1 | h2
    · rw [h1]
      exact le_trans (le_max_left _ _) (step _ (List.mem_cons_self _ _))
    · rcases List.mem_cons.mp h2 with h3 | h4
      · rw [h3]
        exact le_trans (le_max_right _ _) (step _ (List.mem_cons_self _ _))
      · exact step y (List.mem_cons_of_mem _ h4)

/-- C8: normalizeData maps the maximum element of a non-empty vector to 1.0
and the minimum to 0.0 when max - min > 0, and maps every element to 0.5
when all elements are equal. -/
theorem c8_normalizeData (x : ℚ) (xs : List ℚ) :
    (0 < xs.foldl max x - xs.foldl min x →
      normalizeData (x :: xs) =
        (x :: xs).map (fun v => (v - xs.foldl min x) / (xs.foldl max x - xs.foldl min x)) ∧
      (xs.foldl max x - xs.foldl min x) / (xs.foldl max x - xs.foldl min x) = 1 ∧
      (xs.foldl min x - xs.foldl min x) / (xs.foldl max x - xs.foldl min x) = 0 ∧
      xs.foldl max x ∈ x :: xs ∧ xs.foldl min x ∈ x :: xs) ∧
    ((∀ v ∈ x :: xs, ∀ w ∈ x :: xs, v = w) →
      normalizeData (x :: xs) = (x :: xs).map (fun _ => (1 : ℚ) / 2)) := by
  constructor
  · intro hpos
    have hne : xs.foldl max x - xs.foldl min x ≠ 0 := ne_of_gt hpos
    refine ⟨?_, div_self hne, by simp, foldl_max_mem xs x, foldl_min_mem xs x⟩
    simp only [normalizeData, if_neg hne]
  · intro hall
    have hmin : xs.foldl min x = x := hall _ (foldl_min_mem xs x) x (List.mem_cons_self _ _)
    have hmax : xs.foldl max x = x := hall _ (foldl_max_mem xs x) x (List.mem_cons_self _ _)
    simp [normalizeData, hmin, hmax]

/-- Witness for C8 at concrete inputs. -/
theorem c8_normalizeData_witness :
    normalizeData [0, 1] = [(0 : ℚ), 1] ∧ normalizeData [2, 2] = [(1 : ℚ) / 2, 1 / 2] := by
  have h1 := (c8_normalizeData 0 [1]).1
  have h2 := (c8_normalizeData 2 [2]).2
  constructor
  · have e := h1 (by norm_num [List.foldl, max_def, min_def])
    rw [e.1]
    norm_num [List.foldl, max_def, min_def]
  · have e := h2 (by intro v hv w hw; simp at hv hw; rw [hv, hw])
    rw [e]
    norm_num

lemma rsiInit_fold_nonneg :
    ∀ (l : List ℚ) (g s : ℚ), 0 ≤ g → 0 ≤ s →
      0 ≤ (l.foldl (fun gl c => if c > 0 then (gl.1 + c, gl.2) else (gl.1, gl.2 - c)) (g, s)).1 ∧
      0 ≤ (l.foldl (fun gl c => if c > 0 then (gl.1 + c, gl.2) else (gl.1, gl.2 - c)) (g, s)).2
| [], g, s => by intro hg hs; exact ⟨hg, hs⟩
| c :: l, g, s => by
  intro hg hs
  by_cases hc : c > 0
  · simpa [List.foldl_cons, hc] using
      rsiInit_fold_nonneg l (g + c) s (by linarith) hs
  · simpa [List.foldl_cons, hc] using
      rsiInit_fold_nonneg l g (s - c) hg (by push_neg at hc; linarith)

lemma rsiInitAverages_nonneg (changes : List ℚ) :
    0 ≤ (rsiInitAverages changes 14).1 ∧ 0 ≤ (rsiInitAverages changes 14).2 := by
  have h := rsiInit_fold_nonneg (changes.take 14) 0 0 le_rfl le_rfl
  exact ⟨div_nonneg h.1 (by positivity), div_nonneg h.2 (by positivity)⟩

lemma rsiSmooth_nonneg :
    ∀ (rest : List ℚ) (init : ℚ × ℚ), 0 ≤ init.1 → 0 ≤ init.2 →
      0 ≤ (rsiSmooth 14 init rest).1 ∧ 0 ≤ (rsiSmooth 14 init rest).2 := by
  intro rest
  induction rest with
  | nil => intro init h1 h2; exact ⟨h1, h2⟩
  | cons c rest ih =>
    intro init h1 h2
    have hgain : (0 : ℚ) ≤ if c > 0 then c else 0 := by
      split_ifs with hc
      · exact le_of_lt hc
      · exact le_rfl
    have hloss : (0 : ℚ) ≤ if c < 0 then -c else 0 := by
      split_ifs with hc
      · linarith
      · exact le_rfl
    have hcast : (0 : ℚ) ≤ ((14 : ℕ) : ℚ) := by positivity
    have hmul1 : (0 : ℚ) ≤ init.1 * (((14 : ℕ) : ℚ) - 1) := by
      apply mul_nonneg h1
      norm_num
    have hmul2 : (0 : ℚ) ≤ init.2 * (((14 : ℕ) : ℚ) - 1) := by
      apply mul_nonneg h2
      norm_num
    have hstep1 : (0 : ℚ) ≤
        (init.1 * (((14 : ℕ) : ℚ) - 1) + (if c > 0 then c else 0)) / ((14 : ℕ) : ℚ) :=
      div_nonneg (by linarith) hcast
    have hstep2 : (0 : ℚ) ≤
        (init.2 * (((14 : ℕ) : ℚ) - 1) + (if c < 0 then -c else 0)) / ((14 : ℕ) : ℚ) :=
      div_nonneg (by linarith) hcast
    have hres := ih
      ((init.1 * (((14 : ℕ) : ℚ) - 1) + (if c > 0 then c else 0)) / ((14 : ℕ) : ℚ),
       (init.2 * (((14 : ℕ) : ℚ) - 1) + (if c < 0 then -c else 0)) / ((14 : ℕ) : ℚ))
      hstep1 hstep2
    simpa [rsiSmooth, List.foldl_cons] using hres

/-- C4: calculateRSI with period 14 returns 50 for fewer than 15 prices,
returns 100 whenever the smoothed average loss is exactly 0, and always
lies in the interval [0, 100]. -/
theorem c4_calculateRSI :
    (∀ prices : List ℚ, prices.length < 15 → calculateRSI prices 14 = 50) ∧
    (∀ prices : List ℚ, 15 ≤ prices.length →
      (rsiSmooth 14 (rsiInitAverages (priceChanges prices) 14)
        ((priceChanges prices).drop 14)).2 = 0 →
      calculateRSI prices 14 = 100) ∧
    (∀ prices : List ℚ, 0 ≤ calculateRSI prices 14 ∧ calculateRSI prices 14 ≤ 100) := by
  refine ⟨?_, ?_, ?_⟩
  · intro prices h
    have hlt : prices.length < 14 + 1 := by omega
    simp [calculateRSI, hlt]
  · intro prices hlen hzero
    have hnot : ¬ prices.length < 14 + 1 := by omega
    simp [calculateRSI, hnot, hzero]
  · intro prices
    by_cases hlen : prices.length < 14 + 1
    · simp only [calculateRSI, if_pos hlen]
      norm_num
    · simp only [calculateRSI, if_neg hlen]
      have hinit := rsiInitAverages_nonneg (priceChanges prices)
      have hnn := rsiSmooth_nonneg ((priceChanges prices).drop 14)
        (rsiInitAverages (priceChanges prices) 14) hinit.1 hinit.2
      split_ifs with hz
      · norm_num
      · have hg : 0 ≤ (rsiSmooth 14 (rsiInitAverages (priceChanges prices) 14)
            ((priceChanges prices).drop 14)).1 := hnn.1
        have hl : 0 < (rsiSmooth 14 (rsiInitAverages (priceChanges prices) 14)
            ((priceChanges prices).drop 14)).2 := lt_of_le_of_ne hnn.2 (Ne.symm hz)
        set a := (rsiSmooth 14 (rsiInitAverages (priceChanges prices) 14)
            ((priceChanges prices).drop 14)).1 with ha
        set b := (rsiSmooth 14 (rsiInitAverages (priceChanges prices) 14)
            ((priceChanges prices).drop 14)).2 with hb
        have hrs : 0 ≤ a / b := div_nonneg hg hl.le
        have hden : (1 : ℚ) ≤ 1 + a / b := by linarith
        have hfrac_pos : 0 < 100 / (1 + a / b) := div_pos (by norm_num) (by linarith)
        have hfrac_le : 100 / (1 + a / b) ≤ 100 := by
          calc 100 / (1 + a / b) ≤ 100 / 1 :=
            div_le_div_of_nonneg_left (by norm_num) (by norm_num) hden
          _ = 100 := by norm_num
        constructor
        · linarith
        · linarith

/-- Witness for C4 at concrete inputs: the empty series, a strictly
increasing 16-point series, and the bounds at the same series. -/
theorem c4_calculateRSI_witness :
    calculateRSI [] 14 = 50 ∧ calculateRSI upPrices 14 = 100 ∧
    (0 ≤ calculateRSI upPrices 14 ∧ calculateRSI upPrices 14 ≤ 100) :=
  ⟨c4_calculateRSI.1 [] (by decide),
   c4_calculateRSI.2.1 upPrices (by decide)
     (by norm_num [rsiSmooth, rsiInitAverages, priceChanges, upPrices,
       List.foldl, List.zipWith, List.take, List.drop]),
   c4_calculateRSI.2.2 upPrices⟩

/-- C3 counterexample: on the 30-bar flat price series at 1.10000 every
change is zero, so the smoothed average loss is zero and calculateRSI takes
its avgLoss == 0 branch, returning 100 - not 50 as the claim states. -/
theorem c3_counterexample :
    calculateRSI (flatBars.map (fun d => d.price)) 14 = 100 ∧ (100 : ℚ) ≠ 50 := by
  constructor
  · norm_num [calculateRSI, rsiSmooth, rsiInitAverages, priceChanges, flatBars, flatBar,
      List.foldl, List.zipWith, List.take, List.drop]
  · norm_num

/-- C3 amended: on the 30-bar flat series the RSI is 100, and the rule
scorer fires the RSI-overbought, lower-Bollinger-touch and near-support
checks (the flat stochastic is NaN and fires nothing), returning confidence
2/3 with exactly those three reasons.  Holds for every Math.sqrt
implementation with sqrt 0 = 0. -/
theorem c3_flatSeries_amended (log sqrt : ℚ → ℚ) (hsqrt : sqrt 0 = 0) :
    (calculateTechnicalIndicators log sqrt flatBars).rsi = 100 ∧
    analyzeRuleBasedSignals (calculateTechnicalIndicators log sqrt flatBars) flatBar =
      ⟨2 / 3, ["RSI overbought (> 70) - bearish signal",
               "Price at lower Bollinger Band - oversold",
               "Price near support level - potential bounce"]⟩ := by
  norm_num [calculateTechnicalIndicators, analyzeRuleBasedSignals, calculateRSI,
    calculateMACD, calculateEMA, calculateSMA, calculateBollingerBands,
    calculateStochastic, calculateSupportResistance, rsiSmooth, rsiInitAverages,
    priceChanges, jsMaxList, jsMinList, JsNum.sub, JsNum.div, JsNum.mul, JsNum.ltb,
    flatBars, flatBar, hsqrt, List.foldl, List.drop, List.take, List.zipWith]

/-- Witness for the amended C3 theorem at a concrete sqrt implementation. -/
theorem c3_flatSeries_amended_witness :
    (calculateTechnicalIndicators (fun _ => 0) (fun _ => 0) flatBars).rsi = 100 ∧
    analyzeRuleBasedSignals (calculateTechnicalIndicators (fun _ => 0) (fun _ => 0) flatBars)
        flatBar =
      ⟨2 / 3, ["RSI overbought (> 70) - bearish signal",
               "Price at lower Bollinger Band - oversold",
               "Price near support level - potential bounce"]⟩ :=
  c3_flatSeries_amended (fun _ => 0) (fun _ => 0) rfl

/-- C9 counterexample: a degenerate 14-bar window (all highs and lows equal 1)
whose current close is 2 makes calculateStochastic return positive Infinity,
not NaN as the claim states for every degenerate-window input; the value is
still outside [0, 100]. -/
theorem c9_counterexample :
    calculateStochastic cexHighs cexHighs cexCloses 14 =
      ⟨JsNum.inf true, JsNum.inf true⟩ ∧
    JsNum.inf true ≠ JsNum.nan ∧
    JsNum.leb (JsNum.inf true) (JsNum.val 100) = false := by
  refine ⟨?_, by simp, rfl⟩
  norm_num [calculateStochastic, jsMaxList, jsMinList, JsNum.sub, JsNum.div, JsNum.mul,
    cexHighs, cexCloses, List.drop, List.foldl]

/-- C9 amended: with at least 14 closes and a degenerate trailing window
(highest high = lowest low = m), percent-K and percent-D are NaN when the
current close equals m, and a signed Infinity when it differs; in every case
the unguarded division leaves the documented [0, 100] range (under IEEE
comparisons) instead of a neutral default. -/
theorem c9_calculateStochastic_amended (highs lows closes : List ℚ) (m c : ℚ)
    (hlen : ¬ closes.length < 14)
    (hmax : jsMaxList (highs.drop (highs.length - 14)) = JsNum.val m)
    (hmin : jsMinList (lows.drop (lows.length - 14)) = JsNum.val m)
    (hlast : closes.getLast? = some c) :
    (c = m → calculateStochastic highs lows closes 14 = ⟨JsNum.nan, JsNum.nan⟩ ∧
      JsNum.leb (JsNum.val 0) JsNum.nan = false ∧
      JsNum.leb JsNum.nan (JsNum.val 100) = false) ∧
    (c ≠ m →
      ((calculateStochastic highs lows closes 14).k = JsNum.inf true ∧
        JsNum.leb (JsNum.inf true) (JsNum.val 100) = false) ∨
      ((calculateStochastic highs lows closes 14).k = JsNum.inf false ∧
        JsNum.leb (JsNum.val 0) (JsNum.inf false) = false)) := by
  constructor
  · intro hcm
    subst hcm
    have hk : calculateStochastic highs lows closes 14 = ⟨JsNum.nan, JsNum.nan⟩ := by
      simp only [calculateStochastic, if_neg hlen, hmax, hmin, hlast]
      norm_num [JsNum.sub, JsNum.div, JsNum.mul]
    exact ⟨hk, rfl, rfl⟩
  · intro hcm
    rcases lt_or_gt_of_ne hcm with hlt | hgt
    · right
      have h1 : c - m ≠ 0 := sub_ne_zero.mpr hcm
      have h2 : ¬ (0 < c - m) := by linarith
      refine ⟨?_, rfl⟩
      simp only [calculateStochastic, if_neg hlen, hmax, hmin, hlast]
      norm_num [JsNum.sub, JsNum.div, JsNum.mul, h1, h2]
    · left
      have h1 : c - m ≠ 0 := sub_ne_zero.mpr hcm
      have h2 : 0 < c - m := by linarith
      refine ⟨?_, rfl⟩
      simp only [calculateStochastic, if_neg hlen, hmax, hmin, hlast]
      norm_num [JsNum.sub, JsNum.div, JsNum.mul, h1, h2]

/-- Witness for the amended C9 theorem: the all-flat 14-bar window. -/
theorem c9_calculateStochastic_amended_witness :
    calculateStochastic cexHighs cexHighs cexHighs 14 = ⟨JsNum.nan, JsNum.nan⟩ ∧
    JsNum.leb (JsNum.val 0) JsNum.nan = false ∧
    JsNum.leb JsNum.nan (JsNum.val 100) = false :=
  (c9_calculateStochastic_amended cexHighs cexHighs cexHighs 1 1 (by decide)
    (by simp [jsMaxList, cexHighs])
    (by simp [jsMinList, cexHighs])
    rfl).1 rfl

/-- Lemma: the count-based rule confidence bullish/(bullish+bearish), with the
0.5 fallback, always lies in [0, 1]. -/
lemma ruleConfidence_bounds (b c : ℕ) :
    0 ≤ (if b + c = 0 then (1 : ℚ) / 2 else (b : ℚ) / ((b + c : ℕ) : ℚ)) ∧
    (if b + c = 0 then (1 : ℚ) / 2 else (b : ℚ) / ((b + c : ℕ) : ℚ)) ≤ 1 := by
  split_ifs with h
  · norm_num
  · have hpos : 0 < ((b + c : ℕ) : ℚ) := by
      have h2 : 0 < b + c := Nat.pos_of_ne_zero h
      exact_mod_cast h2
    constructor
    · positivity
    · rw [div_le_one hpos]
      exact_mod_cast Nat.le_add_right b c

/-- Lemma: the rule-based scorer confidence always lies in [0, 1]. -/
lemma analyzeRuleBasedSignals_confidence_bounds (ind : TechnicalIndicators)
    (cd : MarketData) :
    0 ≤ (analyzeRuleBasedSignals ind cd).confidence ∧
    (analyzeRuleBasedSignals ind cd).confidence ≤ 1 := by
  simp only [analyzeRuleBasedSignals]
  exact ruleConfidence_bounds _ _

/-- C1 counterexample: the enhanced engine at combined confidence 0.62 (above
the 0.6 the claim names for CALL) returns no signal, because its thresholds
are 0.65 and 0.35. -/
theorem c1_counterexample :
    generateSignalEnhanced (9 / 10) 0 ⟨1 / 5, []⟩ cexIndicators flatBar Duration.one 0 0 = none ∧
    (9 / 10 : ℚ) * (6 / 10) + (1 / 5) * (4 / 10) > 6 / 10 := by
  constructor
  · have hh : signalHeadlineEnhanced (combinedConfidenceEnhanced (9 / 10) 0
        ((⟨1 / 5, []⟩ : RuleSignals).confidence)) = none := by
      unfold signalHeadlineEnhanced combinedConfidenceEnhanced
      norm_num
    unfold generateSignalEnhanced
    rw [hh]
  · norm_num

/-- C1 amended: the basic engine returns CALL above combined confidence 0.6,
PUT below 0.4 and no signal on [0.4, 0.6]; the enhanced engine uses 0.65 and
0.35 instead, so in both engines a combined confidence strictly between 0.4
and 0.6 yields no signal, but values in (0.6, 0.65] or [0.35, 0.4) yield no
signal in the enhanced engine rather than CALL or PUT. -/
theorem c1_directionThresholds_amended (ml s : ℚ) (rb : RuleSignals) (ind : TechnicalIndicators)
    (cd : MarketData) (dur : Duration) (now : ℚ) (n : ℕ) :
    (ml * (6 / 10) + rb.confidence * (4 / 10) > 6 / 10 →
      (generateSignalCore ml rb ind cd dur now).map (fun sig => sig.direction) =
        some Direction.CALL) ∧
    (ml * (6 / 10) + rb.confidence * (4 / 10) < 4 / 10 →
      (generateSignalCore ml rb ind cd dur now).map (fun sig => sig.direction) =
        some Direction.PUT) ∧
    (4 / 10 ≤ ml * (6 / 10) + rb.confidence * (4 / 10) →
      ml * (6 / 10) + rb.confidence * (4 / 10) ≤ 6 / 10 →
      generateSignalCore ml rb ind cd dur now = none) ∧
    (combinedConfidenceEnhanced ml s rb.confidence > 65 / 100 →
      (generateSignalEnhanced ml s rb ind cd dur now n).map (fun sig => sig.direction) =
        some Direction.CALL) ∧
    (combinedConfidenceEnhanced ml s rb.confidence < 35 / 100 →
      (generateSignalEnhanced ml s rb ind cd dur now n).map (fun sig => sig.direction) =
        some Direction.PUT) ∧
    (35 / 100 ≤ combinedConfidenceEnhanced ml s rb.confidence →
      combinedConfidenceEnhanced ml s rb.confidence ≤ 65 / 100 →
      generateSignalEnhanced ml s rb ind cd dur now n = none) := by
  refine ⟨?_, ?_, ?_, ?_, ?_, ?_⟩
  · intro h
    simp only [generateSignalCore]
    rw [if_pos h]
    simp
  · intro h
    have hn : ¬ (ml * (6 / 10) + rb.confidence * (4 / 10) > 6 / 10) := by
      push_neg
      linarith
    simp only [generateSignalCore]
    rw [if_neg hn, if_pos h]
    simp
  · intro h1 h2
    simp only [generateSignalCore]
    rw [if_neg (not_lt.mpr h2), if_neg (not_lt.mpr h1)]
  · intro h
    have hh : signalHeadlineEnhanced (combinedConfidenceEnhanced ml s rb.confidence) =
        some (Direction.CALL, ["Strong bullish signal"]) := by
      unfold signalHeadlineEnhanced
      rw [if_pos h]
    unfold generateSignalEnhanced
    rw [hh]
    rfl
  · intro h
    have hn : ¬ (combinedConfidenceEnhanced ml s rb.confidence > 65 / 100) := by
      push_neg
      linarith
    have hh : signalHeadlineEnhanced (combinedConfidenceEnhanced ml s rb.confidence) =
        some (Direction.PUT, ["Strong bearish signal"]) := by
      unfold signalHeadlineEnhanced
      rw [if_neg hn, if_pos h]
    unfold generateSignalEnhanced
    rw [hh]
    rfl
  · intro h1 h2
    have hh : signalHeadlineEnhanced (combinedConfidenceEnhanced ml s rb.confidence) = none := by
      unfold signalHeadlineEnhanced
      rw [if_neg (not_lt.mpr h2), if_neg (not_lt.mpr h1)]
    unfold generateSignalEnhanced
    rw [hh]

/-- Witness for the amended C1 theorem at concrete inputs exercising all six
branches. -/
theorem c1_directionThresholds_amended_witness :
    (generateSignalCore 1 ⟨1, []⟩ cexIndicators flatBar Duration.one 0).map
      (fun sig => sig.direction) = some Direction.CALL ∧
    (generateSignalCore 0 ⟨0, []⟩ cexIndicators flatBar Duration.one 0).map
      (fun sig => sig.direction) = some Direction.PUT ∧
    generateSignalCore (1 / 2) ⟨1 / 2, []⟩ cexIndicators flatBar Duration.one 0 = none ∧
    (generateSignalEnhanced 1 0 ⟨1, []⟩ cexIndicators flatBar Duration.one 0 0).map
      (fun sig => sig.direction) = some Direction.CALL ∧
    (generateSignalEnhanced 0 0 ⟨0, []⟩ cexIndicators flatBar Duration.one 0 0).map
      (fun sig => sig.direction) = some Direction.PUT ∧
    generateSignalEnhanced (1 / 2) 0 ⟨1 / 2, []⟩ cexIndicators flatBar Duration.one 0 0 =
      none := by
  have t1 := c1_directionThresholds_amended 1 0 ⟨1, []⟩ cexIndicators flatBar Duration.one 0 0
  have t2 := c1_directionThresholds_amended 0 0 ⟨0, []⟩ cexIndicators flatBar Duration.one 0 0
  have t3 := c1_directionThresholds_amended (1 / 2) 0 ⟨1 / 2, []⟩ cexIndicators flatBar Duration.one 0 0
  refine ⟨t1.1 (by norm_num), t2.2.1 (by norm_num),
    t3.2.2.1 (by norm_num) (by norm_num),
    t1.2.2.2.1 (by unfold combinedConfidenceEnhanced; norm_num),
    t2.2.2.2.2.1 (by unfold combinedConfidenceEnhanced; norm_num),
    t3.2.2.2.2.2 (by unfold combinedConfidenceEnhanced; norm_num)
      (by unfold combinedConfidenceEnhanced; norm_num)⟩

/-- C2 counterexample: the enhanced engine with ML prediction 0.01, sentiment
-0.2 and rule confidence 0 emits a PUT whose reported confidence is
2571/2500 = 1.0284, outside [0, 1] (the combined confidence is negative, and
abs(combined - 0.5) * 2 then exceeds 1). -/
theorem c2_counterexample :
    (generateSignalEnhanced (1 / 100) (-(1 / 5)) ⟨0, []⟩ cexIndicators flatBar
        Duration.one 0 0).map (fun sig => sig.confidence) = some (2571 / 2500) ∧
    ¬ ((2571 : ℚ) / 2500 ≤ 1) := by
  constructor
  · have habs : |(-(1 / 5) : ℚ)| = 1 / 5 := by
      rw [abs_neg]
      exact abs_of_nonneg (by norm_num)
    have hc : combinedConfidenceEnhanced (1 / 100) (-(1 / 5))
        ((⟨0, []⟩ : RuleSignals).confidence) = -71 / 5000 := by
      unfold combinedConfidenceEnhanced
      rw [habs]
      norm_num
    have hh : signalHeadlineEnhanced (combinedConfidenceEnhanced (1 / 100) (-(1 / 5))
        ((⟨0, []⟩ : RuleSignals).confidence)) =
        some (Direction.PUT, ["Strong bearish signal"]) := by
      unfold signalHeadlineEnhanced
      rw [hc]
      norm_num
    unfold generateSignalEnhanced
    rw [hh]
    show some (|combinedConfidenceEnhanced (1 / 100) (-(1 / 5))
        ((⟨0, []⟩ : RuleSignals).confidence) - 1 / 2| * 2) = some (2571 / 2500)
    rw [hc, abs_of_nonpos (by norm_num)]
    norm_num
  · norm_num

/-- C2 amended: every emitted signal reports confidence
abs(combinedConfidence - 0.5) * 2 in both engines; for the basic engine with
an ML prediction in [0, 1] the reported confidence also lies in [0, 1],
while the enhanced engine can exceed 1 (see the counterexample). -/
theorem c2_confidenceScaling_amended :
    (∀ (ml : ℚ) (ind : TechnicalIndicators) (cd : MarketData) (dur : Duration) (now : ℚ),
      0 ≤ ml → ml ≤ 1 →
      ∀ sig ∈ generateSignalCore ml (analyzeRuleBasedSignals ind cd) ind cd dur now,
        sig.confidence =
          |ml * (6 / 10) + (analyzeRuleBasedSignals ind cd).confidence * (4 / 10) - 1 / 2| * 2 ∧
        0 ≤ sig.confidence ∧ sig.confidence ≤ 1) ∧
    (∀ (ml s : ℚ) (rb : RuleSignals) (ind : TechnicalIndicators) (cd : MarketData)
        (dur : Duration) (now : ℚ) (n : ℕ),
      ∀ sig ∈ generateSignalEnhanced ml s rb ind cd dur now n,
        sig.confidence = |combinedConfidenceEnhanced ml s rb.confidence - 1 / 2| * 2) := by
  constructor
  · intro ml ind cd dur now h0 h1 sig hsig
    have hrb := analyzeRuleBasedSignals_confidence_bounds ind cd
    have hc0 : 0 ≤ ml * (6 / 10) + (analyzeRuleBasedSignals ind cd).confidence * (4 / 10) := by
      have := hrb.1
      linarith
    have hc1 : ml * (6 / 10) + (analyzeRuleBasedSignals ind cd).confidence * (4 / 10) ≤ 1 := by
      have := hrb.2
      linarith
    have habs : |ml * (6 / 10) +
        (analyzeRuleBasedSignals ind cd).confidence * (4 / 10) - 1 / 2| ≤ 1 / 2 :=
      abs_le.mpr ⟨by linarith, by linarith⟩
    have habs0 : (0 : ℚ) ≤ |ml * (6 / 10) +
        (analyzeRuleBasedSignals ind cd).confidence * (4 / 10) - 1 / 2| := abs_nonneg _
    rw [Option.mem_def] at hsig
    simp only [generateSignalCore] at hsig
    split_ifs at hsig with hgt hlt
    · injection hsig with hrec
      subst hrec
      refine ⟨rfl, ?_, ?_⟩
      · show (0 : ℚ) ≤ |ml * (6 / 10) +
          (analyzeRuleBasedSignals ind cd).confidence * (4 / 10) - 1 / 2| * 2
        linarith
      · show |ml * (6 / 10) +
          (analyzeRuleBasedSignals ind cd).confidence * (4 / 10) - 1 / 2| * 2 ≤ 1
        linarith
    · injection hsig with hrec
      subst hrec
      refine ⟨rfl, ?_, ?_⟩
      · show (0 : ℚ) ≤ |ml * (6 / 10) +
          (analyzeRuleBasedSignals ind cd).confidence * (4 / 10) - 1 / 2| * 2
        linarith
      · show |ml * (6 / 10) +
          (analyzeRuleBasedSignals ind cd).confidence * (4 / 10) - 1 / 2| * 2 ≤ 1
        linarith
  · intro ml s rb ind cd dur now n sig hsig
    rw [Option.mem_def] at hsig
    unfold generateSignalEnhanced at hsig
    by_cases h1 : combinedConfidenceEnhanced ml s rb.confidence > 65 / 100
    · have hh : signalHeadlineEnhanced (combinedConfidenceEnhanced ml s rb.confidence) =
          some (Direction.CALL, ["Strong bullish signal"]) := by
        unfold signalHeadlineEnhanced
        rw [if_pos h1]
      rw [hh] at hsig
      injection hsig with hrec
      subst hrec
      rfl
    · by_cases h2 : combinedConfidenceEnhanced ml s rb.confidence < 35 / 100
      · have hh : signalHeadlineEnhanced (combinedConfidenceEnhanced ml s rb.confidence) =
            some (Direction.PUT, ["Strong bearish signal"]) := by
          unfold signalHeadlineEnhanced
          rw [if_neg h1, if_pos h2]
        rw [hh] at hsig
        injection hsig with hrec
        subst hrec
        rfl
      · have hh : signalHeadlineEnhanced (combinedConfidenceEnhanced ml s rb.confidence) =
            none := by
          unfold signalHeadlineEnhanced
          rw [if_neg h1, if_neg h2]
        rw [hh] at hsig
        exact Option.noConfusion hsig

/-- Witness for the amended C2 theorem: a concrete emitted signal of the
basic engine. -/
theorem c2_confidenceScaling_amended_witness :
    witnessSignal.confidence =
      |1 * (6 / 10) +
        (analyzeRuleBasedSignals witnessIndicators flatBar).confidence * (4 / 10) - 1 / 2| * 2 ∧
    0 ≤ witnessSignal.confidence ∧ witnessSignal.confidence ≤ 1 :=
  (c2_confidenceScaling_amended.1 1 witnessIndicators flatBar Duration.one 0 (by norm_num) (by norm_num))
    witnessSignal
    (by
      rw [Option.mem_def]
      have hrb : analyzeRuleBasedSignals witnessIndicators flatBar =
          ⟨1, ["Price at lower Bollinger Band - oversold",
               "Price near support level - potential bounce"]⟩ := by
        norm_num [analyzeRuleBasedSignals, witnessIndicators, flatBar, JsNum.ltb]
      simp only [generateSignalCore, hrb]
      norm_num [witnessSignal, flatBar, witnessIndicators]
      rw [abs_of_nonneg (by norm_num)]
      norm_num)

/-- C5: saving a model and then loading into any instance with the same
symbol restores the architecture, weights, biases and training history, and
predict on any fixed feature vector returns the same output as the saved
model, for every Math implementation. -/
theorem c5_saveLoad_roundtrip (M : MathImpl) (model other : MLModel) (now : ℚ) (store : ModelStore)
    (features : List ℚ) (hsym : other.symbol = model.symbol) :
    loadModel other (saveModel model now store) =
      ({ other with
          architecture := model.architecture
          weights := model.weights
          biases := model.biases
          trainingHistory := model.trainingHistory }, true) ∧
    predict M (loadModel other (saveModel model now store)).1 features =
      predict M model features := by
  have hload : loadModel other (saveModel model now store) =
      ({ other with
          architecture := model.architecture
          weights := model.weights
          biases := model.biases
          trainingHistory := model.trainingHistory }, true) := by
    simp [loadModel, saveModel, hsym]
  refine ⟨hload, ?_⟩
  rw [hload]
  rfl

/-- Witness for C5 at a concrete two-layer model and feature vector. -/
theorem c5_saveLoad_roundtrip_witness :
    loadModel demoModel (saveModel demoModel 0 emptyStore) =
      ({ demoModel with
          architecture := demoModel.architecture
          weights := demoModel.weights
          biases := demoModel.biases
          trainingHistory := demoModel.trainingHistory }, true) ∧
    predict mathZero (loadModel demoModel (saveModel demoModel 0 emptyStore)).1 [1, 2] =
      predict mathZero demoModel [1, 2] :=
  c5_saveLoad_roundtrip mathZero demoModel demoModel 0 emptyStore [1, 2] rfl

/-- C6: calling trainModels while isModelTraining is true fails fast with
the distinct error Training already in progress, and any call that returns
normally - whether its body succeeded or an internal error was caught -
leaves the isTraining flag false. -/
theorem c6_trainModels_guard :
    (∀ (state : EngineState) (body : TrainOutcome), isModelTraining state = true →
      trainModels state body = Except.error "Training already in progress") ∧
    (∀ (state : EngineState) (body : TrainOutcome) (s2 : EngineState)
        (r : List (String × List TrainingMetrics)),
      trainModels state body = Except.ok (s2, r) → isModelTraining s2 = false) := by
  constructor
  · intro state body h
    have hb : state.isTraining = true := h
    simp [trainModels, hb]
  · intro state body s2 r h
    unfold trainModels at h
    by_cases hb : state.isTraining
    · rw [if_pos hb] at h
      exact absurd h (by simp)
    · rw [if_neg hb] at h
      injection h with h2
      injection h2 with ha hb2
      rw [← ha]
      rfl

/-- Witness for C6: a busy engine rejects the call; an idle engine whose
training body fails internally still ends with the flag cleared. -/
theorem c6_trainModels_guard_witness :
    trainModels ⟨true⟩ (TrainOutcome.succeeded []) =
      Except.error "Training already in progress" ∧
    isModelTraining (⟨false⟩ : EngineState) = false :=
  ⟨c6_trainModels_guard.1 ⟨true⟩ (TrainOutcome.succeeded []) rfl,
   c6_trainModels_guard.2 ⟨false⟩ (TrainOutcome.failed []) ⟨false⟩ [] rfl⟩

/-- C7: evaluateModel on a missing, empty, or fully-unresolved prediction
log returns the all-zero ModelMetrics record; the embedding is a total
function, mirroring that the source never throws (its catch also returns
zeros). -/
theorem c7_evaluateModel_empty (sqrt : ℚ → ℚ) (stored : Option (List StoredPrediction))
    (h : stored = none ∨ stored.getD [] = [] ∨
      (stored.getD []).filter (fun p => decide (p.actualOutcome ≠ none)) = []) :
    evaluateModel sqrt stored = zeroMetrics := by
  rcases h with h | h | h
  · subst h
    rfl
  · have hall : ∀ a ∈ stored.getD [], a.actualOutcome = none := by
      intro a ha
      by_contra hne
      have hmem : a ∈ List.filter (fun p => decide (p.actualOutcome ≠ none)) (stored.getD []) := by
        rw [List.mem_filter]
        exact ⟨ha, by simpa using hne⟩
      rw [h] at hmem
      simp at hmem
    have h2 : List.filter (fun p => !decide (p.actualOutcome = none)) (stored.getD []) = [] := by
      rw [List.filter_eq_nil_iff]
      intro a ha
      simp [hall a ha]
    simp [evaluateModel, h2]
  · have hall : ∀ a ∈ stored.getD [], a.actualOutcome = none := by
      intro a ha
      by_contra hne
      have hmem : a ∈ List.filter (fun p => decide (p.actualOutcome ≠ none)) (stored.getD []) := by
        rw [List.mem_filter]
        exact ⟨ha, by simpa using hne⟩
      rw [h] at hmem
      simp at hmem
    have h2 : List.filter (fun p => !decide (p.actualOutcome = none)) (stored.getD []) = [] := by
      rw [List.filter_eq_nil_iff]
      intro a ha
      simp [hall a ha]
    simp [evaluateModel, h2]

/-- Witness for C7: the missing log and a log with one unresolved entry. -/
theorem c7_evaluateModel_empty_witness :
    evaluateModel (fun _ => 0) none = zeroMetrics ∧
    evaluateModel (fun _ => 0) (some [demoPrediction]) = zeroMetrics :=
  ⟨c7_evaluateModel_empty (fun _ => 0) none (Or.inl rfl),
   c7_evaluateModel_empty (fun _ => 0) (some [demoPrediction]) (Or.inr (Or.inr rfl))⟩

/-- C10: after every storePrediction call the log holds at most 1000
entries, equals the appended log with all but the most recent 1000 entries
dropped (a suffix, so only oldest entries are removed), and holds exactly
1000 entries when the append exceeds the cap. -/
theorem c10_storePrediction_bounded (existing : Option (List StoredPrediction)) (entry : StoredPrediction) :
    (storePrediction existing entry).length ≤ 1000 ∧
    storePrediction existing entry =
      ((existing.getD []) ++ [entry]).drop (((existing.getD []) ++ [entry]).length - 1000) ∧
    List.IsSuffix (storePrediction existing entry) ((existing.getD []) ++ [entry]) ∧
    (1000 < ((existing.getD []) ++ [entry]).length →
      (storePrediction existing entry).length = 1000) := by
  have heq : storePrediction existing entry =
      ((existing.getD []) ++ [entry]).drop (((existing.getD []) ++ [entry]).length - 1000) := by
    simp only [storePrediction]
    split_ifs with h
    · rfl
    · push_neg at h
      rw [Nat.sub_eq_zero_of_le h, List.drop_zero]
  have hlen : (storePrediction existing entry).length ≤ 1000 := by
    rw [heq, List.length_drop]
    omega
  refine ⟨hlen, heq, ?_, ?_⟩
  · rw [heq]
    exact List.drop_suffix _ _
  · intro hbig
    rw [heq, List.length_drop]
    omega

/-- Witness for C10 at a log already holding 1000 entries. -/
theorem c10_storePrediction_bounded_witness :
    (storePrediction (some (List.replicate 1000 demoPrediction)) demoPrediction).length ≤ 1000 ∧
    storePrediction (some (List.replicate 1000 demoPrediction)) demoPrediction =
      (((some (List.replicate 1000 demoPrediction)).getD []) ++ [demoPrediction]).drop
        ((((some (List.replicate 1000 demoPrediction)).getD []) ++ [demoPrediction]).length
          - 1000) ∧
    List.IsSuffix (storePrediction (some (List.replicate 1000 demoPrediction)) demoPrediction)
      (((some (List.replicate 1000 demoPrediction)).getD []) ++ [demoPrediction]) ∧
    (storePrediction (some (List.replicate 1000 demoPrediction)) demoPrediction).length =
      1000 := by
  have t := c10_storePrediction_bounded (some (List.replicate 1000 demoPrediction)) demoPrediction
  have hlen1 : (((some (List.replicate 1000 demoPrediction)).getD []) ++
      [demoPrediction]).length = 1001 := by
    show (List.replicate 1000 demoPrediction ++ [demoPrediction]).length = 1001
    rw [List.length_append, List.length_replicate]
    rfl
  exact ⟨t.1, t.2.1, t.2.2.1, t.2.2.2 (by rw [hlen1]; norm_num)⟩
